import Mathlib

/-!
Verification development for the BizTalkAI voice-session codebase.

The definitions below are a shallow embedding of the TypeScript source:

* `useLocalWhisper` (local-capture transcription hook): segmentation timers,
  the MediaRecorder wiring, the buffer-flush decision, and the handling of the
  batch-transcription response.
* `useWebRTCVoice` (voice-session hook): connection state, the transcript
  ledger, the activity/idle timers, `startSession`, `stopSession`, and the
  data-channel message handler.
* `server/realtime.ts` (signaling relay): the six WebSocket event handlers of
  one client/upstream relay pair.

Timers are modelled by absolute deadlines (`Option Nat`, milliseconds);
JavaScript truthiness on strings and numbers is modelled explicitly where the
source relies on it.  `Math.exp` is an opaque parameter `e : ℚ → ℚ` since only
the call structure, never the numeric value, matters to the claims.
-/

namespace BizTalk

/-! ## Local Whisper capture (src/unnamed/part_001, `useLocalWhisper`) -/

/-- Source constant `SILENCE_THRESHOLD = 3000` (ms). -/
def SILENCE_THRESHOLD : Nat := 3000

/-- Source constant `MIN_AUDIO_LENGTH = 500` (ms). -/
def MIN_AUDIO_LENGTH : Nat := 500

/-- Source constant `MAX_AUDIO_LENGTH = 15000` (ms). -/
def MAX_AUDIO_LENGTH : Nat := 15000

/-- One element of the `segments` array of a verbose-json Whisper response.
The `avg_logprob` field may be absent from the JSON object. -/
structure WhisperSegment where
  avg_logprob : Option ℚ
deriving DecidableEq, Repr

/-- The body of a batch-transcription response: `result.text` and the optional
`result.segments` array. -/
structure WhisperResponse where
  text : String
  segments : Option (List WhisperSegment)
deriving DecidableEq, Repr

/-- Embeds the confidence expression of `processAudioWithWhisper`
(part_001 line 666): the optional chain `result.segments?.[0]?.avg_logprob`
followed by a JS ternary, so the number `0` is falsy and yields `undefined`
exactly like a missing field.  `e` stands for `Math.exp`. -/
def whisperConfidence (e : ℚ → ℚ) (r : WhisperResponse) : Option ℚ :=
  match r.segments with
  | none => none
  | some segs =>
    match segs.head? with
    | none => none
    | some seg =>
      match seg.avg_logprob with
      | none => none
      | some p => if p ≠ 0 then some (e p) else none

/-- Model of the JavaScript `String.prototype.trim`: strip leading and
trailing whitespace (executable over the character list). -/
def jsTrim (s : String) : String :=
  ⟨((s.data.dropWhile Char.isWhitespace).reverse.dropWhile Char.isWhitespace).reverse⟩

/-- The value delivered to `onTranscriptionUpdate` (id and timestamp are
environment-generated and not modelled). -/
structure LocalTranscriptionResult where
  text : String
  confidence : Option ℚ
deriving DecidableEq, Repr

/-- Embeds the success path of `processAudioWithWhisper`
(part_001 lines 661-674): a result is produced under the JS condition
`result.text && result.text.trim()`, with the trimmed text and the confidence
above; otherwise nothing is yielded. -/
def whisperYield (e : ℚ → ℚ) (r : WhisperResponse) : Option LocalTranscriptionResult :=
  if r.text ≠ "" ∧ jsTrim r.text ≠ "" then
    some { text := jsTrim r.text, confidence := whisperConfidence e r }
  else none

/-- Restates the confidence rule in the words of the specification claim, for
comparison with `whisperConfidence`: confidence is present whenever the first
segment carries an `avg_logprob` at all. -/
def whisperConfidenceClaim (e : ℚ → ℚ) (r : WhisperResponse) : Option ℚ :=
  match r.segments with
  | none => none
  | some segs =>
    match segs.head? with
    | none => none
    | some seg => seg.avg_logprob.map e

/-- Accessor for the `avg_logprob` of the first returned segment, used to state
properties of `whisperConfidence`. -/
def firstAvgLogprob (r : WhisperResponse) : Option ℚ :=
  (r.segments.getD []).head?.bind (fun seg => seg.avg_logprob)

/-- Concrete stand-in for `Math.exp` used by closed witnesses and
counterexamples (any injective-enough function works: the claims never depend
on the numeric value of the exponential). -/
def expProbe : ℚ → ℚ := fun p => p + 1

/-- Outcome of the awaited `fetch` to the batch-transcription endpoint. -/
inductive FetchOutcome where
  | ok (r : WhisperResponse)
  | httpError (status : Nat) (body : String)
  | networkError (msg : String)
deriving DecidableEq, Repr

/-- The mutable refs and React state of the `useLocalWhisper` hook.
Deadlines are absolute times for the two `setTimeout` calls
(`silenceTimeoutRef`, `processingTimeoutRef`); `stopTime` is an observation
recording when `mediaRecorder.stop()` was invoked. -/
structure LocalWhisperState where
  isRecording : Bool
  isProcessing : Bool
  audioChunks : List Nat
  streamAttached : Bool
  recorderAttached : Bool
  recorderRecording : Bool
  silenceDeadline : Option Nat
  processingDeadline : Option Nat
  stopTime : Option Nat
deriving DecidableEq, Repr

/-- The idle local-whisper hook state, before any recording. -/
def initialLWState : LocalWhisperState :=
  { isRecording := false, isProcessing := false, audioChunks := []
    streamAttached := false, recorderAttached := false, recorderRecording := false
    silenceDeadline := none, processingDeadline := none, stopTime := none }

/-- Embeds `resetSilenceTimer` (part_001 lines 752-764): clear the pending
silence timeout and arm a new one `SILENCE_THRESHOLD` ms from now. -/
def resetSilenceTimer (now : Nat) (s : LocalWhisperState) : LocalWhisperState :=
  { s with silenceDeadline := some (now + SILENCE_THRESHOLD) }

/-- Embeds `mediaRecorder.ondataavailable` (part_001 lines 714-719): a chunk
with positive size is appended to the buffer.  Note that the source handler
does not touch the silence timer. -/
def onDataAvailable (size : Nat) (s : LocalWhisperState) : LocalWhisperState :=
  if 0 < size then { s with audioChunks := s.audioChunks ++ [size] } else s

/-- Firing of the silence `setTimeout` callback (part_001 lines 757-763): the
timeout is consumed; if the recorder is attached and still recording it is
stopped and `isRecording` is set false. -/
def fireSilenceTimer (t : Nat) (s : LocalWhisperState) : LocalWhisperState :=
  let s := { s with silenceDeadline := none }
  if s.recorderAttached && s.recorderRecording then
    { s with recorderRecording := false, isRecording := false, stopTime := some t }
  else s

/-- Firing of the maximum-recording-time `setTimeout` callback
(part_001 lines 769-775): same guard and action as the silence callback. -/
def fireProcessingTimer (t : Nat) (s : LocalWhisperState) : LocalWhisperState :=
  let s := { s with processingDeadline := none }
  if s.recorderAttached && s.recorderRecording then
    { s with recorderRecording := false, isRecording := false, stopTime := some t }
  else s

/-- Fires the due timer callbacks at time `now`.  In every reachable state the
silence deadline is the earlier of the two: both are armed together in
`startRecording`, with delays 3000 and 15000 ms, and nothing ever re-arms the
silence timer afterwards. -/
def fireDueTimers (now : Nat) (s : LocalWhisperState) : LocalWhisperState :=
  let s :=
    match s.silenceDeadline with
    | some d => if d ≤ now then fireSilenceTimer d s else s
    | none => s
  match s.processingDeadline with
  | some d => if d ≤ now then fireProcessingTimer d s else s
  | none => s

/-- Embeds `startRecording` (part_001 lines 683-780): guard on
`enabled && !isRecording`, then attach the stream and recorder, clear the
chunk buffer, start recording, call `resetSilenceTimer` once, and arm the
maximum-recording-time timeout. -/
def startRecording (enabled : Bool) (now : Nat) (s : LocalWhisperState) : LocalWhisperState :=
  if !enabled || s.isRecording then s
  else
    let s := { s with streamAttached := true, audioChunks := []
                      recorderAttached := true, recorderRecording := true
                      isRecording := true, stopTime := none }
    let s := resetSilenceTimer now s
    { s with processingDeadline := some (now + MAX_AUDIO_LENGTH) }

/-- Embeds `stopRecording` (part_001 lines 782-799): stop the recorder if it
is still recording, then clear both timeouts. -/
def stopRecording (now : Nat) (s : LocalWhisperState) : LocalWhisperState :=
  let s :=
    if s.recorderAttached && s.recorderRecording then
      { s with recorderRecording := false, isRecording := false, stopTime := some now }
    else s
  { s with processingDeadline := none, silenceDeadline := none }

/-- Embeds `cleanup` (part_001 lines 801-815): `stopRecording`, release the
stream tracks, drop the recorder, clear the buffer and both flags. -/
def cleanup (now : Nat) (s : LocalWhisperState) : LocalWhisperState :=
  let s := stopRecording now s
  { s with streamAttached := false, recorderAttached := false, audioChunks := []
           isRecording := false, isProcessing := false }

/-- Embeds the estimated-duration expression of `mediaRecorder.onstop`
(part_001 line 730): `(audioBlob.size / 128000) * 1000`, in milliseconds,
computed over the rationals. -/
def estimatedDuration (blobSize : Nat) : ℚ := ((blobSize : ℚ) / 128000) * 1000

/-- Embeds the decision of `mediaRecorder.onstop` (part_001 lines 721-744):
returns the blob size passed to `processAudioWithWhisper`, or `none` when the
buffer is discarded (no chunks, empty blob, or estimated duration below
`MIN_AUDIO_LENGTH`). -/
def onStopDecision (chunks : List Nat) : Option Nat :=
  if chunks.length > 0 then
    let blobSize := chunks.sum
    if 0 < blobSize then
      if (MIN_AUDIO_LENGTH : ℚ) ≤ estimatedDuration blobSize then some blobSize
      else none
    else none
  else none

/-- Embeds the completion of `processAudioWithWhisper`
(part_001 lines 650-680), from the point the awaited `fetch` resolves: on a
2xx response the yielded result (if any) is handed to `onTranscriptionUpdate`;
a non-2xx response or a network failure is caught and only logged.  In every
case `isProcessing` is cleared in the `finally` block.  The handler consults
no other session state: there is no session-generation check. -/
def processAudioCompletion (e : ℚ → ℚ) (s : LocalWhisperState) (out : FetchOutcome) :
    LocalWhisperState × Option LocalTranscriptionResult :=
  match out with
  | .ok r => ({ s with isProcessing := false }, whisperYield e r)
  | .httpError _ _ => ({ s with isProcessing := false }, none)
  | .networkError _ => ({ s with isProcessing := false }, none)

/-- Chunk arrival times of a continuous, gap-free speech stream:
100 ms, 200 ms, ..., 14900 ms (MediaRecorder timeslice 100 ms). -/
def continuousChunkTimes : List Nat := (List.range 149).map (fun i => 100 * (i + 1))

/-- Drives one recording of the local-whisper hook: start at time 0, then for
each chunk time fire the due timer callbacks and, if the recorder is still
recording, deliver a 1600-byte chunk (128 kbit/s over 100 ms); finally fire
whatever is due at the horizon. -/
def runContinuousRecording (times : List Nat) (horizon : Nat) : LocalWhisperState :=
  let s0 := startRecording true 0 initialLWState
  fireDueTimers horizon
    (times.foldl
      (fun s t =>
        let s := fireDueTimers t s
        if s.recorderRecording then onDataAvailable 1600 s else s)
      s0)

/-! ## Voice session hook (src/unnamed/part_001, `useWebRTCVoice`) -/

/-- Speaker tag of a ledger entry: `Efa` is the assistant, `You` the caller. -/
inductive Speaker where
  | efa
  | you
deriving DecidableEq, Repr

/-- One entry of the transcript ledger (`TranscriptionMessage`); the random id
and wall-clock timestamp are environment-generated and not modelled.
`isLocal = true` marks the local-capture source, `false` the streaming
source. -/
structure TranscriptionMessage where
  speaker : Speaker
  text : String
  isLocal : Bool
  confidence : Option ℚ
deriving DecidableEq, Repr

/-- The `ConnectionStatus` union type of the hook. -/
inductive ConnectionStatus where
  | idle
  | connecting
  | connected
  | error
  | disconnected
deriving DecidableEq, Repr

/-- The `RTCPeerConnection` held by `peerConnectionRef` (only its identity
matters to the claims). -/
structure PeerConnection where
  handle : Nat
deriving DecidableEq, Repr

/-- The audio element held by `audioElementRef`; `srcObject` is the attached
remote stream, `none` when the sink is detached. -/
structure AudioElement where
  srcObject : Option Nat
deriving DecidableEq, Repr

/-- The React state and the mutable refs of the `useWebRTCVoice` hook.
`localStream` holds the ids of the microphone tracks; `idleTimeout` is the
absolute deadline of the armed idle `setTimeout` (ms). -/
structure HookState where
  connectionStatus : ConnectionStatus
  isSessionActive : Bool
  sessionId : Option String
  transcription : List TranscriptionMessage
  peerConnection : Option PeerConnection
  localStream : Option (List Nat)
  audioElement : Option AudioElement
  hasReceivedWelcome : Bool
  lastActivityTime : Nat
  sessionStartTime : Nat
  idleTimeout : Option Nat
deriving DecidableEq, Repr

/-- Embeds `addTranscriptionMessage` (part_001 lines 53-73): append exactly
one entry to the ledger. -/
def addTranscriptionMessage (speaker : Speaker) (text : String) (isLocal : Bool)
    (confidence : Option ℚ) (s : HookState) : HookState :=
  { s with transcription :=
      s.transcription ++ [{ speaker := speaker, text := text, isLocal := isLocal
                            confidence := confidence }] }

/-- Resource actions performed by teardown, recorded as an effect trace:
cancelling the armed idle timer, `peerConnection.close()`, `track.stop()` for
each microphone track, and `audioElement.srcObject = null`. -/
inductive TeardownEffect where
  | clearIdleTimer (deadline : Nat)
  | closePeerConnection
  | stopTrack (id : Nat)
  | detachAudioSink
deriving DecidableEq, Repr

/-- Embeds `clearAllTimeouts` (part_001 lines 113-118) as the effect list it
produces: the armed idle timeout, if any, is cancelled and nulled. -/
def clearAllTimeoutsEffects (s : HookState) : List TeardownEffect :=
  match s.idleTimeout with
  | some d => [.clearIdleTimer d]
  | none => []

/-- Embeds `stopSession` (part_001 lines 499-547).  The sequential
null-guarded blocks of the source are flattened into one record update plus
the effect trace of the resource actions they perform: clear the idle timer,
reset the welcome flag, close and null the peer connection, stop every
microphone track and null the stream, detach the audio sink when an audio
element is attached, then reset the React state (status `idle`, session
inactive, id null, ledger cleared). -/
def stopSession (s : HookState) : HookState × List TeardownEffect :=
  let e1 := clearAllTimeoutsEffects s
  let e2 : List TeardownEffect :=
    match s.peerConnection with
    | some _ => [.closePeerConnection]
    | none => []
  let e3 : List TeardownEffect :=
    match s.localStream with
    | some tracks => tracks.map TeardownEffect.stopTrack
    | none => []
  let e4 : List TeardownEffect :=
    match s.audioElement with
    | some _ => [.detachAudioSink]
    | none => []
  ({ s with idleTimeout := none, hasReceivedWelcome := false
            peerConnection := none, localStream := none
            audioElement := s.audioElement.map (fun _ => { srcObject := none })
            connectionStatus := .idle, isSessionActive := false, sessionId := none
            transcription := [] },
   e1 ++ e2 ++ e3 ++ e4)

/-- Source constant of `resetActivityTimer`: `8 * 60 * 1000` ms. -/
def IDLE_TIMEOUT_MS : Nat := 8 * 60 * 1000

/-- Source constant of the idle callback hard-limit check: 15 minutes in
ms (the code compares whole minutes, `totalMinutes >= 15`). -/
def HARD_LIMIT_MS : Nat := 15 * 60 * 1000

/-- Embeds `resetActivityTimer` (part_001 lines 85-110): record the activity
time, cancel the previously armed idle timeout (returned as the list of
cancelled deadlines), and arm a new one `IDLE_TIMEOUT_MS` from now. -/
def resetActivityTimer (now : Nat) (s : HookState) : HookState × List Nat :=
  ({ s with lastActivityTime := now, idleTimeout := some (now + IDLE_TIMEOUT_MS) },
   s.idleTimeout.toList)

/-- Diagnostic classification of an idle-timer expiry. -/
inductive ExpiryKind where
  | hardLimit
  | idle
deriving DecidableEq, Repr

/-- Embeds the classification inside the idle `setTimeout` callback
(part_001 lines 94-104): `totalMinutes = floor((now - sessionStart)/1000/60)`
and the expiry is reported as the hard limit when `totalMinutes >= 15`,
otherwise as idle. -/
def classifyExpiry (now : Nat) (s : HookState) : ExpiryKind :=
  if 15 ≤ (now - s.sessionStartTime) / 1000 / 60 then .hardLimit else .idle

/-- The body of the idle `setTimeout` callback (part_001 lines 93-109):
classify the expiry for the log, then call `stopSession` through
`stopSessionRef` — the same enforced action for both kinds. -/
def idleTimerCallback (now : Nat) (s : HookState) : HookState × ExpiryKind :=
  ((stopSession s).1, classifyExpiry now s)

/-- Fires the armed idle timeout if its deadline has been reached at `now`:
the one-shot timeout is consumed, then its callback runs.  Returns the fired
expiries (time and classification). -/
def fireIdleIfDue (now : Nat) (s : HookState) : HookState × List (Nat × ExpiryKind) :=
  match s.idleTimeout with
  | some d =>
    if d ≤ now then
      let r := idleTimerCallback now { s with idleTimeout := none }
      (r.1, [(now, r.2)])
    else (s, [])
  | none => (s, [])

/-- Embeds the session-start bookkeeping of `dataChannel.onopen`
(part_001 lines 217-220): record the session start time and call
`resetActivityTimer`. -/
def sessionOpenArm (now : Nat) (s : HookState) : HookState :=
  (resetActivityTimer now { s with sessionStartTime := now }).1

/-- The endpoints and environment calls `startSession` can issue, in order:
the token endpoint `/api/session`, `getUserMedia`, and the remote realtime
offer/answer endpoint. -/
inductive EndpointCall where
  | sessionEndpoint
  | getUserMediaCall
  | realtimeEndpoint
deriving DecidableEq, Repr

/-- Error message thrown when `getUserMedia` is rejected
(part_001 line 187). -/
def micDeniedMessage : String :=
  "Microphone access denied. Please allow microphone access and try again."

/-- Error message thrown when the token endpoint fails
(part_001 line 155, the fallback text). -/
def tokenFailMessage : String := "Failed to get session token"

/-- Error message thrown when the realtime offer/answer exchange fails
(part_001 line 469, prefix of the thrown message). -/
def negotiationFailMessage : String := "OpenAI Realtime API error"

/-- Environment of one `startSession` run: whether the token endpoint
succeeds, whether microphone permission is granted, whether the remote
offer/answer exchange succeeds, and the granted microphone tracks. -/
structure StartEnv where
  tokenOk : Bool
  micGranted : Bool
  negotiationOk : Bool
  micTracks : List Nat
deriving DecidableEq, Repr

/-- Observable log of one `startSession` run. -/
structure StartRun where
  state : HookState
  calls : List EndpointCall
  statuses : List ConnectionStatus
  errorMessage : Option String
  teardownRan : Bool
deriving DecidableEq, Repr

/-- Embeds the synchronous skeleton of `startSession`
(part_001 lines 120-497): set status `connecting`; call the token endpoint
(failure throws); call `getUserMedia` (denial throws `micDeniedMessage`);
create the peer connection and add the tracks; create the offer and POST it
to the remote realtime endpoint (failure throws).  Every throw lands in the
catch block (lines 482-496): set status `error`, then run `stopSession`
through `stopSessionRef`. -/
def startSession (env : StartEnv) (s0 : HookState) : StartRun :=
  let s := { s0 with connectionStatus := .connecting }
  let calls := [EndpointCall.sessionEndpoint]
  if !env.tokenOk then
    let s := { s with connectionStatus := .error }
    { state := (stopSession s).1, calls := calls
      statuses := [.connecting, .error, .idle]
      errorMessage := some tokenFailMessage, teardownRan := true }
  else
    let calls := calls ++ [EndpointCall.getUserMediaCall]
    if !env.micGranted then
      let s := { s with connectionStatus := .error }
      { state := (stopSession s).1, calls := calls
        statuses := [.connecting, .error, .idle]
        errorMessage := some micDeniedMessage, teardownRan := true }
    else
      let s := { s with localStream := some env.micTracks }
      let s := { s with peerConnection := some { handle := 0 } }
      let calls := calls ++ [EndpointCall.realtimeEndpoint]
      if !env.negotiationOk then
        let s := { s with connectionStatus := .error }
        { state := (stopSession s).1, calls := calls
          statuses := [.connecting, .error, .idle]
          errorMessage := some negotiationFailMessage, teardownRan := true }
      else
        { state := s, calls := calls, statuses := [.connecting]
          errorMessage := none, teardownRan := false }

/-- One content item of a `response.done` output message
(`item.type`, `item.text`). -/
structure ResponseContentItem where
  type : String
  text : Option String
deriving DecidableEq, Repr

/-- One output item of a `response.done` event (`lastOutput.type`,
`lastOutput.content`; `content` may be absent). -/
structure ResponseOutputItem where
  type : String
  content : Option (List ResponseContentItem)
deriving DecidableEq, Repr

/-- The `response` object of a `response.done` event (`output` may be
absent). -/
structure ResponseObject where
  output : Option (List ResponseOutputItem)
deriving DecidableEq, Repr

/-- A parsed data-channel event: its `type` string and the optional fields
the handler reads.  Absent JSON fields are `none`; JS truthiness on a string
field means present and non-empty. -/
structure DataChannelEvent where
  type : String
  transcript : Option String
  delta : Option String
  response : Option ResponseObject
deriving DecidableEq, Repr

/-- Truthiness of an optional JS string: present and non-empty. -/
def truthyStr : Option String → Bool
  | some t => t ≠ ""
  | none => false

/-- Embeds the `response.done` branch of the data-channel handler
(part_001 lines 350-370): when the response carries a non-empty `output`
array whose last element is a `message` with a present `content` array, the
first content item of type `text` with a truthy `text` field is appended to
the ledger as an assistant entry. -/
def handleResponseDone (resp : Option ResponseObject) (s : HookState) : HookState :=
  match resp with
  | some r =>
    match r.output with
    | some outs =>
      if outs.length > 0 then
        match outs.getLast? with
        | some lastOut =>
          if lastOut.type = "message" then
            match lastOut.content with
            | some items =>
              match items.find? (fun it => it.type = "text") with
              | some item =>
                match item.text with
                | some t =>
                  if t ≠ "" then addTranscriptionMessage .efa t false none s else s
                | none => s
              | none => s
            | none => s
          else s
        | none => s
      else s
    | none => s
  | none => s

/-- Embeds the `response.audio_transcript.done` branch
(part_001 lines 321-337): a truthy transcript is appended as an assistant
entry; on the first such entry the welcome flag is set and the status becomes
`connected`. -/
def handleAudioTranscriptDone (transcript : Option String) (s : HookState) : HookState :=
  match transcript with
  | some t =>
    if t ≠ "" then
      let s := addTranscriptionMessage .efa t false none s
      if !s.hasReceivedWelcome then
        { s with hasReceivedWelcome := true, connectionStatus := .connected }
      else s
    else s
  | none => s

/-- Branches of the `dataChannel.onmessage` if/else-if chain, one constructor
per source branch in source order.  The `Dead` constructors stand for the
three branches after `response.audio_transcript.done` whose conditions repeat
conditions that already occurred earlier in the chain: in an else-if chain
the earlier branch always wins, so these are dead code. -/
inductive EventKind where
  | userTransCompleted
  | userTransFailed
  | speechStarted
  | speechStopped
  | userTransDelta
  | bufferCommitted
  | userTransStarted
  | userTransDone
  | userTransCreated
  | userTransUpdated
  | aiTransDelta
  | aiTransDone
  | bufferCommittedDead
  | userTransCreatedDead
  | userTransUpdatedDead
  | responseDone
  | errorEvent
  | other
deriving DecidableEq, Repr

/-- Embeds the condition chain of `dataChannel.onmessage`
(part_001 lines 271-379): the same string comparisons, in source order,
including the three repeated (dead) conditions. -/
def classifyEventType (ty : String) : EventKind :=
  if ty = "conversation.item.input_audio_transcription.completed" then .userTransCompleted
  else if ty = "conversation.item.input_audio_transcription.failed" then .userTransFailed
  else if ty = "input_audio_buffer.speech_started" then .speechStarted
  else if ty = "input_audio_buffer.speech_stopped" then .speechStopped
  else if ty = "conversation.item.input_audio_transcription.delta" then .userTransDelta
  else if ty = "input_audio_buffer.committed" then .bufferCommitted
  else if ty = "conversation.item.input_audio_transcription.started" then .userTransStarted
  else if ty = "conversation.item.input_audio_transcription.done" then .userTransDone
  else if ty = "conversation.item.input_audio_transcription.created" then .userTransCreated
  else if ty = "conversation.item.input_audio_transcription.updated" then .userTransUpdated
  else if ty = "response.audio_transcript.delta" then .aiTransDelta
  else if ty = "response.audio_transcript.done" then .aiTransDone
  else if ty = "input_audio_buffer.committed" then .bufferCommittedDead
  else if ty = "conversation.item.input_audio_transcription.created" then .userTransCreatedDead
  else if ty = "conversation.item.input_audio_transcription.updated" then .userTransUpdatedDead
  else if ty = "response.done" then .responseDone
  else if ty = "error" then .errorEvent
  else .other

/-- Embeds the branch bodies of `dataChannel.onmessage`
(part_001 lines 271-379), branch for branch.  All
`conversation.item.input_audio_transcription.*` branches and the
speech-started/stopped and buffer-committed branches only log; their appends
are commented out (DISABLED) in the source.  The `userTransUpdatedDead`
branch is the only one whose body would append a caller entry, and it is
unreachable (its condition is shadowed by `userTransUpdated`).  The trailing
direct-transcript fallback (lines 376-379) also only logs; its append is
commented out in the source. -/
def handleParsedEvent (d : DataChannelEvent) (s : HookState) : HookState :=
  match classifyEventType d.type with
  | .userTransCompleted => s
  | .userTransFailed => s
  | .speechStarted => s
  | .speechStopped => s
  | .userTransDelta => s
  | .bufferCommitted => s
  | .userTransStarted => s
  | .userTransDone => s
  | .userTransCreated => s
  | .userTransUpdated => s
  | .aiTransDelta => s
  | .aiTransDone => handleAudioTranscriptDone d.transcript s
  | .bufferCommittedDead => s
  | .userTransCreatedDead => s
  | .userTransUpdatedDead =>
    (match d.transcript with
     | some t => if t ≠ "" then addTranscriptionMessage .you t false none s else s
     | none => s)
  | .responseDone => handleResponseDone d.response s
  | .errorEvent => s
  | .other => s

/-- Embeds `dataChannel.onmessage` (part_001 lines 259-386): reset the
activity timer first, then parse; a parse failure is caught and logged, a
parsed event goes through the branch chain. -/
def handleDataChannelMessage (now : Nat) (parsed : Option DataChannelEvent)
    (s : HookState) : HookState :=
  let s := (resetActivityTimer now s).1
  match parsed with
  | some d => handleParsedEvent d s
  | none => s

/-- The event-type prefix shared by all remote user-transcription events. -/
def userTransPrefixText : String := "conversation.item.input_audio_transcription."

/-- Whether an event type is a remote user-transcription event
(`conversation.item.input_audio_transcription.*`), decided over the character
lists. -/
def isUserTranscriptionEventType (ty : String) : Bool :=
  userTransPrefixText.data.isPrefixOf ty.data

/-- Modelled from the spec: the consumer component that receives finalized
local-capture results (the `onTranscriptionUpdate` wiring between
`useLocalWhisper` and the voice hook) is not under src/; per the spec, a
finalized local-capture utterance appends exactly one entry with role caller,
source local-capture, including its confidence score. -/
def deliverLocalTranscription (t : LocalTranscriptionResult) (s : HookState) : HookState :=
  addTranscriptionMessage .you t.text true t.confidence s

/-! ## Text-chat voice path (client/src/pages/ChatPage.tsx) -/

/-- One chat message of the ChatPage conversation (id, timestamp and audio
URL are environment-generated and not modelled). -/
structure ChatMessage where
  speaker : String
  text : String
  isVoice : Bool
deriving DecidableEq, Repr

/-- Fallback text appended by the ChatPage voice-message path when
transcription fails (ChatPage.tsx line 613). -/
def chatFallbackText : String :=
  "Sorry, I couldn\x27t understand your voice message. Please try again."

/-- Outcome of the awaited `transcribeAudio` call of ChatPage. -/
inductive TranscribeOutcome where
  | ok (text : String)
  | failed (msg : String)
deriving DecidableEq, Repr

/-- Embeds `mediaRecorder.onstop` of `handleVoiceRecord`
(ChatPage.tsx lines 578-623): a successful transcription with non-blank text
appends the caller message (and then sends it to the chat API); a thrown
error is caught and appends the fallback assistant message.  Neither path
touches the session or connection state. -/
def chatVoiceOnStop (out : TranscribeOutcome) (messages : List ChatMessage) :
    List ChatMessage :=
  match out with
  | .ok t =>
    if jsTrim t ≠ "" then
      messages ++ [{ speaker := "You", text := t, isVoice := true }]
    else messages
  | .failed _ =>
    messages ++ [{ speaker := "Efa", text := chatFallbackText, isVoice := false }]

/-! ## Signaling relay (server/realtime.ts, `setupRealtimeWebSocket`) -/

/-- WebSocket `readyState` values. -/
inductive WsReadyState where
  | connecting
  | wsOpen
  | closing
  | closed
deriving DecidableEq, Repr

/-- A frame written to one of the sockets: forwarded payload, or the error
notice the upstream error handler sends to the client. -/
inductive RelayFrame where
  | data (payload : String)
  | errorNotice (message : String)
deriving DecidableEq, Repr

/-- State of one RelayPair: the ready states of the client and upstream
sockets, and the frames written to each. -/
structure RelayState where
  clientState : WsReadyState
  upstreamState : WsReadyState
  toClient : List RelayFrame
  toUpstream : List RelayFrame
deriving DecidableEq, Repr

/-- A relay pair with both legs open and nothing sent. -/
def relayBothOpen : RelayState :=
  { clientState := .wsOpen, upstreamState := .wsOpen, toClient := [], toUpstream := [] }

/-- Embeds the upstream `message` handler (realtime.ts lines 86-104): forward
to the client only if the client socket is open, otherwise drop and log. -/
def onUpstreamMessage (payload : String) (s : RelayState) : RelayState :=
  if s.clientState = .wsOpen then
    { s with toClient := s.toClient ++ [RelayFrame.data payload] }
  else s

/-- Embeds the upstream `error` handler (realtime.ts lines 106-123): when the
client socket is open, send it an error notice.  The handler closes neither
socket. -/
def onUpstreamError (s : RelayState) : RelayState :=
  if s.clientState = .wsOpen then
    { s with toClient := s.toClient ++ [RelayFrame.errorNotice "OpenAI connection error"] }
  else s

/-- Embeds the upstream `close` handler (realtime.ts lines 125-134): the
upstream socket is now closed; the client socket is closed only if it is
open. -/
def onUpstreamClose (s : RelayState) : RelayState :=
  let s := { s with upstreamState := .closed }
  if s.clientState = .wsOpen then { s with clientState := .closed } else s

/-- Embeds the client `message` handler (realtime.ts lines 137-154): forward
to upstream only if the upstream socket is open, otherwise drop and log. -/
def onClientMessage (payload : String) (s : RelayState) : RelayState :=
  if s.upstreamState = .wsOpen then
    { s with toUpstream := s.toUpstream ++ [RelayFrame.data payload] }
  else s

/-- Embeds the client `close` handler (realtime.ts lines 156-165): the client
socket is now closed; the upstream socket is closed only if it is open. -/
def onClientClose (s : RelayState) : RelayState :=
  let s := { s with clientState := .closed }
  if s.upstreamState = .wsOpen then { s with upstreamState := .closed } else s

/-- Embeds the client `error` handler (realtime.ts lines 167-178): the
upstream socket is closed if it is open; the client socket itself is left as
is. -/
def onClientError (s : RelayState) : RelayState :=
  if s.upstreamState = .wsOpen then { s with upstreamState := .closed } else s

/-! ## Concrete states used by witnesses and counterexamples -/

/-- A live mid-session hook state: connected, armed idle timer, one ledger
entry, open peer connection, two microphone tracks, attached audio sink. -/
def hookDemoState : HookState :=
  { connectionStatus := .connected, isSessionActive := true, sessionId := some "sess_1"
    transcription := [{ speaker := .efa, text := "Hello!", isLocal := false, confidence := none }]
    peerConnection := some { handle := 7 }, localStream := some [1, 2]
    audioElement := some { srcObject := some 5 }, hasReceivedWelcome := true
    lastActivityTime := 1000, sessionStartTime := 1000, idleTimeout := some 481000 }

/-- A remote user-transcription event carrying a transcript of caller
speech. -/
def userTranscriptionDemoEvent : DataChannelEvent :=
  { type := "conversation.item.input_audio_transcription.completed"
    transcript := some "book a table", delta := none, response := none }

/-- A transcription response whose first segment reports `avg_logprob = 0`
(log-probability of a certain transcription). -/
def whisperZeroLogprobResponse : WhisperResponse :=
  { text := "hi", segments := some [{ avg_logprob := some 0 }] }

/-- A transcription response with untrimmed text and `avg_logprob = -1`. -/
def whisperDemoResponse : WhisperResponse :=
  { text := " hi ", segments := some [{ avg_logprob := some (-1) }] }

/-- A local-whisper state with one transcription call in flight
(`isProcessing`), as left behind after a 3 s recording. -/
def lwDemoState : LocalWhisperState :=
  { isRecording := false, isProcessing := true, audioChunks := []
    streamAttached := true, recorderAttached := true, recorderRecording := false
    silenceDeadline := none, processingDeadline := some 15000, stopTime := some 3000 }

/-- The transcript ledger after one local-capture transcription call
completes: the yielded result, if any, is delivered to the ledger via the
consumer callback; otherwise the ledger is untouched. -/
def localPathLedgerAfter (e : ℚ → ℚ) (s : LocalWhisperState) (out : FetchOutcome)
    (hs : HookState) : HookState :=
  match (processAudioCompletion e s out).2 with
  | some t => deliverLocalTranscription t hs
  | none => hs

/-! ## Theorems settling the claims -/

/-- Characterization of the event-type chain: the two appending branches are
reached only on their exact type strings, and the three dead (shadowed)
branches are never reached for any type string. -/
theorem classify_spec (ty : String) :
    (classifyEventType ty = .aiTransDone → ty = "response.audio_transcript.done")
  ∧ (classifyEventType ty = .responseDone → ty = "response.done")
  ∧ classifyEventType ty ≠ .bufferCommittedDead
  ∧ classifyEventType ty ≠ .userTransCreatedDead
  ∧ classifyEventType ty ≠ .userTransUpdatedDead := by
  unfold classifyEventType
  by_cases h1 : ty = "conversation.item.input_audio_transcription.completed"
  · rw [if_pos h1]
    exact ⟨fun h => absurd h (by decide), fun h => absurd h (by decide), by decide, by decide, by decide⟩
  · rw [if_neg h1]
    by_cases h2 : ty = "conversation.item.input_audio_transcription.failed"
    · rw [if_pos h2]
      exact ⟨fun h => absurd h (by decide), fun h => absurd h (by decide), by decide, by decide, by decide⟩
    · rw [if_neg h2]
      by_cases h3 : ty = "input_audio_buffer.speech_started"
      · rw [if_pos h3]
        exact ⟨fun h => absurd h (by decide), fun h => absurd h (by decide), by decide, by decide, by decide⟩
      · rw [if_neg h3]
        by_cases h4 : ty = "input_audio_buffer.speech_stopped"
        · rw [if_pos h4]
          exact ⟨fun h => absurd h (by decide), fun h => absurd h (by decide), by decide, by decide, by decide⟩
        · rw [if_neg h4]
          by_cases h5 : ty = "conversation.item.input_audio_transcription.delta"
          · rw [if_pos h5]
            exact ⟨fun h => absurd h (by decide), fun h => absurd h (by decide), by decide, by decide, by decide⟩
          · rw [if_neg h5]
            by_cases h6 : ty = "input_audio_buffer.committed"
            · rw [if_pos h6]
              exact ⟨fun h => absurd h (by decide), fun h => absurd h (by decide), by decide, by decide, by decide⟩
            · rw [if_neg h6]
              by_cases h7 : ty = "conversation.item.input_audio_transcription.started"
              · rw [if_pos h7]
                exact ⟨fun h => absurd h (by decide), fun h => absurd h (by decide), by decide, by decide, by decide⟩
              · rw [if_neg h7]
                by_cases h8 : ty = "conversation.item.input_audio_transcription.done"
                · rw [if_pos h8]
                  exact ⟨fun h => absurd h (by decide), fun h => absurd h (by decide), by decide, by decide, by decide⟩
                · rw [if_neg h8]
                  by_cases h9 : ty = "conversation.item.input_audio_transcription.created"
                  · rw [if_pos h9]
                    exact ⟨fun h => absurd h (by decide), fun h => absurd h (by decide), by decide, by decide, by decide⟩
                  · rw [if_neg h9]
                    by_cases h10 : ty = "conversation.item.input_audio_transcription.updated"
                    · rw [if_pos h10]
                      exact ⟨fun h => absurd h (by decide), fun h => absurd h (by decide), by decide, by decide, by decide⟩
                    · rw [if_neg h10]
                      by_cases h11 : ty = "response.audio_transcript.delta"
                      · rw [if_pos h11]
                        exact ⟨fun h => absurd h (by decide), fun h => absurd h (by decide), by decide, by decide, by decide⟩
                      · rw [if_neg h11]
                        by_cases h12 : ty = "response.audio_transcript.done"
                        · rw [if_pos h12]
                          exact ⟨fun _ => h12, fun h => absurd h (by decide), by decide, by decide, by decide⟩
                        · rw [if_neg h12]
                          rw [if_neg h6]
                          rw [if_neg h9]
                          rw [if_neg h10]
                          by_cases h16 : ty = "response.done"
                          · rw [if_pos h16]
                            exact ⟨fun h => absurd h (by decide), fun _ => h16, by decide, by decide, by decide⟩
                          · rw [if_neg h16]
                            by_cases h17 : ty = "error"
                            · rw [if_pos h17]
                              exact ⟨fun h => absurd h (by decide), fun h => absurd h (by decide), by decide, by decide, by decide⟩
                            · rw [if_neg h17]
                              exact ⟨fun h => absurd h (by decide), fun h => absurd h (by decide), by decide, by decide, by decide⟩

/-- The `response.audio_transcript.done` branch either leaves the ledger
unchanged or appends exactly one assistant streaming entry. -/
theorem audioDone_transcription_cases (tr : Option String) (s : HookState) :
    (handleAudioTranscriptDone tr s).transcription = s.transcription
  ∨ ∃ t : String, (handleAudioTranscriptDone tr s).transcription =
      s.transcription ++
        [{ speaker := Speaker.efa, text := t, isLocal := false, confidence := none }] := by
  unfold handleAudioTranscriptDone addTranscriptionMessage
  rcases tr with _ | t
  · exact Or.inl rfl
  · by_cases ht : t = ""
    · simp [ht]
    · right
      refine ⟨t, ?_⟩
      simp only [ht, ne_eq, not_false_iff, if_true]
      split_ifs <;> rfl

/-- The `response.done` branch either leaves the ledger unchanged or appends
exactly one assistant streaming entry. -/
theorem responseDone_transcription_cases (resp : Option ResponseObject) (s : HookState) :
    (handleResponseDone resp s).transcription = s.transcription
  ∨ ∃ t : String, (handleResponseDone resp s).transcription =
      s.transcription ++
        [{ speaker := Speaker.efa, text := t, isLocal := false, confidence := none }] := by
  unfold handleResponseDone addTranscriptionMessage
  repeat' split
  all_goals first
    | exact Or.inl rfl
    | (right; exact ⟨_, rfl⟩)

/-- Any parsed data-channel event either leaves the ledger unchanged or
appends exactly one assistant streaming entry. -/
theorem handleParsedEvent_transcription_cases (d : DataChannelEvent) (s : HookState) :
    (handleParsedEvent d s).transcription = s.transcription
  ∨ ∃ t : String, (handleParsedEvent d s).transcription =
      s.transcription ++
        [{ speaker := Speaker.efa, text := t, isLocal := false, confidence := none }] := by
  unfold handleParsedEvent
  rcases hk : classifyEventType d.type <;>
    first
      | exact Or.inl rfl
      | exact audioDone_transcription_cases d.transcript s
      | exact responseDone_transcription_cases d.response s
      | exact absurd hk (classify_spec d.type).2.2.2.2

/-- C1: every inbound data-channel event whose type is a remote
user-transcription event (`conversation.item.input_audio_transcription.*`)
leaves the state, and in particular the transcript ledger, unchanged; every
ledger append of the data-channel handler is a single assistant streaming
entry, and a finalized local-capture result appends a single caller
local-capture entry with its confidence. -/
theorem c1_remote_user_transcription_never_appended (now : Nat) (d : DataChannelEvent)
    (s : HookState) (hpre : isUserTranscriptionEventType d.type = true) :
    (handleParsedEvent d s = s)
  ∧ ((handleDataChannelMessage now (some d) s).transcription = s.transcription)
  ∧ (∀ (d2 : DataChannelEvent) (s2 : HookState),
      (handleParsedEvent d2 s2).transcription = s2.transcription
      ∨ ∃ t : String, (handleParsedEvent d2 s2).transcription =
          s2.transcription ++
            [{ speaker := Speaker.efa, text := t, isLocal := false, confidence := none }])
  ∧ (∀ (t : LocalTranscriptionResult) (s2 : HookState),
      (deliverLocalTranscription t s2).transcription = s2.transcription ++
        [{ speaker := Speaker.you, text := t.text, isLocal := true
           confidence := t.confidence }]) := by
  have hne1 : d.type ≠ "response.audio_transcript.done" := by
    intro he
    rw [he] at hpre
    exact absurd hpre (by decide)
  have hne2 : d.type ≠ "response.done" := by
    intro he
    rw [he] at hpre
    exact absurd hpre (by decide)
  have hid : ∀ u : HookState, handleParsedEvent d u = u := by
    intro u
    unfold handleParsedEvent
    rcases hk : classifyEventType d.type <;>
      first
        | rfl
        | exact absurd ((classify_spec d.type).1 hk) hne1
        | exact absurd ((classify_spec d.type).2.1 hk) hne2
        | exact absurd hk (classify_spec d.type).2.2.2.2
  refine ⟨hid s, ?_, fun d2 s2 => handleParsedEvent_transcription_cases d2 s2,
    fun t s2 => rfl⟩
  simp only [handleDataChannelMessage, hid]
  rfl

/-- Witness for C1 at a concrete remote user-transcription event carrying a
caller transcript, against a live session state. -/
theorem c1_witness :
    handleParsedEvent userTranscriptionDemoEvent hookDemoState = hookDemoState :=
  (c1_remote_user_transcription_never_appended 0 userTranscriptionDemoEvent hookDemoState
    (by decide)).1

/-- C8: a flushed buffer whose estimated duration is below the 0.5 s
minimum, or an empty buffer, is discarded without a transcription call. -/
theorem c8_short_or_empty_buffer_discarded (chunks : List Nat)
    (h : estimatedDuration chunks.sum < (MIN_AUDIO_LENGTH : ℚ) ∨ chunks = []) :
    onStopDecision chunks = none := by
  rcases h with h | rfl
  · simp only [onStopDecision]
    split_ifs with h1 h2 h3
    · exact absurd h3 (not_le.mpr h)
    · rfl
    · rfl
    · rfl
  · rfl

/-- Witness for C8: a single 100-byte chunk (estimated 0.78 ms) is
discarded. -/
theorem c8_witness : onStopDecision [100] = none :=
  c8_short_or_empty_buffer_discarded [100]
    (Or.inl (by norm_num [estimatedDuration, MIN_AUDIO_LENGTH]))

/-- C5 counterexample: an upstream-leg error on a pair with both legs open
closes neither leg, refuting that erroring either leg closes the other. -/
theorem c5_upstream_error_closes_nothing :
    (onUpstreamError relayBothOpen).clientState = WsReadyState.wsOpen ∧
    (onUpstreamError relayBothOpen).upstreamState = WsReadyState.wsOpen := by
  constructor <;> rfl

/-- C5 (amended): closing either leg closes the other when it is open; a
client-leg error closes the upstream leg when open; an upstream-leg error
closes neither leg and only sends the client an error notice when the client
is open; a frame is forwarded only when the peer socket is open and is
dropped without any other state change otherwise. -/
theorem c5_relay_close_and_forwarding (s : RelayState) (p : String) :
    ((onUpstreamClose s).upstreamState = .closed)
  ∧ (s.clientState = .wsOpen → (onUpstreamClose s).clientState = .closed)
  ∧ ((onClientClose s).clientState = .closed)
  ∧ (s.upstreamState = .wsOpen → (onClientClose s).upstreamState = .closed)
  ∧ (s.upstreamState = .wsOpen → (onClientError s).upstreamState = .closed)
  ∧ ((onUpstreamError s).clientState = s.clientState
      ∧ (onUpstreamError s).upstreamState = s.upstreamState)
  ∧ (s.clientState ≠ .wsOpen → onUpstreamMessage p s = s)
  ∧ (s.clientState = .wsOpen →
      (onUpstreamMessage p s).toClient = s.toClient ++ [RelayFrame.data p])
  ∧ (s.upstreamState ≠ .wsOpen → onClientMessage p s = s)
  ∧ (s.upstreamState = .wsOpen →
      (onClientMessage p s).toUpstream = s.toUpstream ++ [RelayFrame.data p]) := by
  refine ⟨?_, ?_, ?_, ?_, ?_, ⟨?_, ?_⟩, ?_, ?_, ?_, ?_⟩ <;>
    · simp only [onUpstreamClose, onClientClose, onClientError, onUpstreamError,
        onUpstreamMessage, onClientMessage]
      try intro h
      split_ifs <;> simp_all

/-- Witness for C5 at a pair with both legs open: a client close closes the
upstream leg, and an upstream frame is forwarded while open. -/
theorem c5_witness :
    (onUpstreamClose relayBothOpen).clientState = WsReadyState.closed ∧
    (onClientMessage "frame" relayBothOpen).toUpstream = [RelayFrame.data "frame"] :=
  ⟨(c5_relay_close_and_forwarding relayBothOpen "frame").2.1 rfl,
   (c5_relay_close_and_forwarding relayBothOpen "frame").2.2.2.2.2.2.2.2.2 rfl⟩

/-- C7: when the token step succeeds and microphone permission is denied,
`startSession` surfaces the distinguishable permission-denied reason, the
status passes through `error`, teardown runs, and the realtime offer/answer
endpoint is never called. -/
theorem c7_mic_denied_no_negotiation (env : StartEnv) (s : HookState)
    (htok : env.tokenOk = true) (hmic : env.micGranted = false) :
    (startSession env s).errorMessage = some micDeniedMessage
  ∧ ConnectionStatus.error ∈ (startSession env s).statuses
  ∧ (startSession env s).teardownRan = true
  ∧ EndpointCall.realtimeEndpoint ∉ (startSession env s).calls
  ∧ (startSession env s).state.connectionStatus = .idle
  ∧ micDeniedMessage ≠ tokenFailMessage
  ∧ micDeniedMessage ≠ negotiationFailMessage := by
  refine ⟨?_, ?_, ?_, ?_, ?_, by decide, by decide⟩ <;>
    simp [startSession, htok, hmic, stopSession]

/-- Witness for C7 in the environment where permission is denied. -/
theorem c7_witness :
    (startSession { tokenOk := true, micGranted := false, negotiationOk := true, micTracks := [] }
        hookDemoState).errorMessage = some micDeniedMessage ∧
    EndpointCall.realtimeEndpoint ∉
      (startSession { tokenOk := true, micGranted := false, negotiationOk := true, micTracks := [] }
        hookDemoState).calls :=
  ⟨(c7_mic_denied_no_negotiation _ hookDemoState rfl rfl).1,
   (c7_mic_denied_no_negotiation _ hookDemoState rfl rfl).2.2.2.1⟩

/-- C2: teardown is total and idempotent from any state: after `stopSession`
the idle timer ref is null, the peer connection is closed (effect emitted)
and nulled, every microphone track is stopped and the stream released, the
audio sink is detached, the ledger is empty and the status is `idle`;
stopping the already-stopped state changes nothing. -/
theorem c2_stop_session_teardown (s : HookState) :
    ((stopSession s).1.idleTimeout = none)
  ∧ ((stopSession s).1.peerConnection = none)
  ∧ (s.peerConnection.isSome = true →
      TeardownEffect.closePeerConnection ∈ (stopSession s).2)
  ∧ ((stopSession s).1.localStream = none)
  ∧ (∀ tracks, s.localStream = some tracks →
      ∀ t ∈ tracks, TeardownEffect.stopTrack t ∈ (stopSession s).2)
  ∧ (∀ el, (stopSession s).1.audioElement = some el → el.srcObject = none)
  ∧ ((stopSession s).1.transcription = [])
  ∧ ((stopSession s).1.connectionStatus = .idle)
  ∧ ((stopSession s).1.isSessionActive = false)
  ∧ ((stopSession (stopSession s).1).1 = (stopSession s).1) := by
  obtain ⟨cs, act, sid, tr, pc, ls, ae, hw, la, st, it⟩ := s
  cases pc <;> cases ls <;> cases ae <;> cases it <;>
    simp [stopSession, clearAllTimeoutsEffects, List.mem_map]

/-- Witness for C2 at a live session state with an open peer connection, two
microphone tracks, an attached sink and an armed timer. -/
theorem c2_witness :
    TeardownEffect.closePeerConnection ∈ (stopSession hookDemoState).2 ∧
    TeardownEffect.stopTrack 2 ∈ (stopSession hookDemoState).2 ∧
    (∀ el, (stopSession hookDemoState).1.audioElement = some el → el.srcObject = none) ∧
    (stopSession (stopSession hookDemoState).1).1 = (stopSession hookDemoState).1 :=
  ⟨(c2_stop_session_teardown hookDemoState).2.2.1 rfl,
   (c2_stop_session_teardown hookDemoState).2.2.2.2.1 [1, 2] rfl 2 (by decide),
   (c2_stop_session_teardown hookDemoState).2.2.2.2.2.1,
   (c2_stop_session_teardown hookDemoState).2.2.2.2.2.2.2.2.2⟩

set_option maxRecDepth 8000 in
/-- C4 (code bug evaluation): under a continuous gap-free chunk stream the
recorder is stopped at 3000 ms after start with only the first 29 chunks
buffered, not at the 15000 ms maximum-utterance boundary, because
`ondataavailable` never touches the silence deadline. -/
theorem c4_silence_timer_never_reset_by_chunks :
    ((runContinuousRecording continuousChunkTimes 15000).stopTime = some SILENCE_THRESHOLD)
  ∧ ((runContinuousRecording continuousChunkTimes 15000).audioChunks.length = 29)
  ∧ ((runContinuousRecording continuousChunkTimes 15000).stopTime ≠ some MAX_AUDIO_LENGTH)
  ∧ (∀ (size : Nat) (s : LocalWhisperState),
      (onDataAvailable size s).silenceDeadline = s.silenceDeadline) := by
  refine ⟨by decide, by decide, by decide, ?_⟩
  intro size s
  simp only [onDataAvailable]
  split_ifs <;> rfl

/-- C6 (code bug evaluation): a transcription call in flight across `cleanup`
still delivers its result after teardown — the completion handler reads no
session state at all, so no generation check can discard the stale result. -/
theorem c6_stale_result_delivered_after_teardown :
    ((processAudioCompletion expProbe (cleanup 5000 lwDemoState)
        (FetchOutcome.ok { text := "hi", segments := none })).2 =
      some { text := "hi", confidence := none })
  ∧ (∀ (e : ℚ → ℚ) (s1 s2 : LocalWhisperState) (out : FetchOutcome),
      (processAudioCompletion e s1 out).2 = (processAudioCompletion e s2 out).2) := by
  refine ⟨by rfl, ?_⟩
  intro e s1 s2 out
  cases out <;> rfl

/-- C9 counterexample: a failed local-capture transcription call (HTTP 500)
leaves the transcript ledger exactly as it was — no fallback entry is
appended in the local-capture path. -/
theorem c9_local_failure_no_fallback_entry :
    localPathLedgerAfter expProbe lwDemoState
        (FetchOutcome.httpError 500 "Internal Server Error") hookDemoState =
      hookDemoState := by rfl

/-- C9 (amended): a failed local-capture transcription call is absorbed
(only the processing flag is cleared, nothing is delivered, the session state
is untouched), while the text-chat voice-message path of ChatPage appends the
could-not-understand fallback message on failure and also does not terminate
anything. -/
theorem c9_failure_logged_fallback_only_in_chat (e : ℚ → ℚ) (s : LocalWhisperState)
    (st : Nat) (b m : String) (msgs : List ChatMessage) (hs : HookState) :
    (processAudioCompletion e s (.httpError st b) = ({ s with isProcessing := false }, none))
  ∧ (processAudioCompletion e s (.networkError m) = ({ s with isProcessing := false }, none))
  ∧ (localPathLedgerAfter e s (.httpError st b) hs = hs)
  ∧ (chatVoiceOnStop (.failed m) msgs =
      msgs ++ [{ speaker := "Efa", text := chatFallbackText, isVoice := false }]) := by
  refine ⟨rfl, rfl, rfl, rfl⟩

/-- C10 counterexample: on a response whose first segment has
`avg_logprob = 0`, the code yields a result without confidence, while the
claim prescribes confidence `exp 0`. -/
theorem c10_zero_logprob_counterexample :
    (whisperYield expProbe whisperZeroLogprobResponse =
      some { text := "hi", confidence := none })
  ∧ (firstAvgLogprob whisperZeroLogprobResponse = some 0)
  ∧ (whisperConfidenceClaim expProbe whisperZeroLogprobResponse = some (expProbe 0))
  ∧ ((none : Option ℚ) ≠ some (expProbe 0)) := by
  refine ⟨by rfl, by rfl, by rfl, by simp⟩

/-- C10 (amended): a result is yielded exactly when the response text is
non-empty after trimming, carrying the trimmed text and the computed
confidence; the confidence is present exactly when the first segment carries
a nonzero `avg_logprob`, and then equals the exponential of it. -/
theorem c10_yield_and_confidence (e : ℚ → ℚ) (r : WhisperResponse) :
    ((whisperYield e r = none) ↔ jsTrim r.text = "")
  ∧ (∀ res, whisperYield e r = some res →
      res.text = jsTrim r.text ∧ res.confidence = whisperConfidence e r)
  ∧ ((whisperConfidence e r = none) ↔
      (firstAvgLogprob r = none ∨ firstAvgLogprob r = some 0))
  ∧ (∀ p, firstAvgLogprob r = some p → p ≠ 0 → whisperConfidence e r = some (e p)) := by
  refine ⟨?_, ?_, ?_, ?_⟩
  · constructor
    · intro hy
      by_contra htr
      have hne : r.text ≠ "" := by
        intro he
        apply htr
        rw [he]
        rfl
      simp [whisperYield, hne, htr] at hy
    · intro htr
      simp [whisperYield, htr]
  · intro res hres
    simp only [whisperYield] at hres
    split_ifs at hres with hc
    · cases hres
      exact ⟨rfl, rfl⟩
  · unfold whisperConfidence firstAvgLogprob
    rcases r with ⟨t, segs⟩
    cases segs with
    | none => simp
    | some l =>
      cases l with
      | nil => simp
      | cons seg rest =>
        rcases hsp : seg.avg_logprob with _ | p
        · simp [hsp]
        · by_cases hp : p = 0 <;> simp [hsp, hp]
  · intro p hp hpne
    unfold whisperConfidence
    unfold firstAvgLogprob at hp
    rcases r with ⟨t, segs⟩
    cases segs with
    | none => simp at hp
    | some l =>
      cases l with
      | nil => simp at hp
      | cons seg rest =>
        simp_all

/-- Witness for C10 at a response with `avg_logprob = -1`. -/
theorem c10_witness :
    whisperConfidence expProbe whisperDemoResponse = some (expProbe (-1)) :=
  (c10_yield_and_confidence expProbe whisperDemoResponse).2.2.2 (-1) (by rfl) (by norm_num)

/-- The state produced by `stopSession` does not depend on the armed idle
timeout (the field is overwritten). -/
theorem stopSession_fst_ignores_idleTimeout (u : HookState) :
    (stopSession { u with idleTimeout := none }).1 = (stopSession u).1 := by
  simp [stopSession]

/-- C3: with the timer armed at session start and no further activity, the
idle timeout fires exactly once by any time past the idle threshold, stops
the session (status `idle`, timer cleared, no refire at any later time); the
fired expiry is classified hard-limit exactly when the elapsed time since
session start is at least 15 minutes; the enforced action is `stopSession`
regardless of the classification; and each `resetActivityTimer` call cancels
the previously armed countdown before arming a new one. -/
theorem c3_idle_expiry_once_and_classified (t0 now now2 : Nat) (s : HookState)
    (h : t0 + IDLE_TIMEOUT_MS ≤ now) :
    ((fireIdleIfDue now (sessionOpenArm t0 s)).2.length = 1)
  ∧ ((fireIdleIfDue now (sessionOpenArm t0 s)).1.connectionStatus = .idle)
  ∧ ((fireIdleIfDue now (sessionOpenArm t0 s)).1.idleTimeout = none)
  ∧ ((fireIdleIfDue now2 (fireIdleIfDue now (sessionOpenArm t0 s)).1).2 = [])
  ∧ ((fireIdleIfDue now (sessionOpenArm t0 s)).2 = [(now, ExpiryKind.hardLimit)]
      ↔ HARD_LIMIT_MS ≤ now - t0)
  ∧ ((fireIdleIfDue now (sessionOpenArm t0 s)).1 = (stopSession (sessionOpenArm t0 s)).1)
  ∧ (∀ (m : Nat) (u : HookState),
      (resetActivityTimer m u).2 = u.idleTimeout.toList
      ∧ (resetActivityTimer m u).1.idleTimeout = some (m + IDLE_TIMEOUT_MS)) := by
  have hu : (sessionOpenArm t0 s).idleTimeout = some (t0 + IDLE_TIMEOUT_MS) := rfl
  have hst : (sessionOpenArm t0 s).sessionStartTime = t0 := rfl
  have hfire : fireIdleIfDue now (sessionOpenArm t0 s) =
      ((stopSession (sessionOpenArm t0 s)).1,
        [(now, classifyExpiry now (sessionOpenArm t0 s))]) := by
    simp only [fireIdleIfDue, hu, idleTimerCallback]
    rw [if_pos h]
    rw [stopSession_fst_ignores_idleTimeout]
    try rfl
  have hstop1 : (stopSession (sessionOpenArm t0 s)).1.idleTimeout = none := by
    simp [stopSession]
  have hclass : (classifyExpiry now (sessionOpenArm t0 s) = ExpiryKind.hardLimit)
      ↔ HARD_LIMIT_MS ≤ now - t0 := by
    unfold classifyExpiry
    rw [hst, Nat.div_div_eq_div_mul]
    have h60 : 0 < 1000 * 60 := by norm_num
    constructor
    · intro hk
      split_ifs at hk with hc
      have := (Nat.le_div_iff_mul_le h60).mp hc
      calc HARD_LIMIT_MS = 15 * (1000 * 60) := by norm_num [HARD_LIMIT_MS]
        _ ≤ now - t0 := this
    · intro hge
      have h15 : 15 * (1000 * 60) ≤ now - t0 := by
        calc 15 * (1000 * 60) = HARD_LIMIT_MS := by norm_num [HARD_LIMIT_MS]
          _ ≤ now - t0 := hge
      have := (Nat.le_div_iff_mul_le h60).mpr h15
      simp [this]
  refine ⟨by rw [hfire]; rfl, by rw [hfire]; simp [stopSession],
    by rw [hfire]; exact hstop1,
    by rw [hfire]; simp [fireIdleIfDue, hstop1],
    ?_, by rw [hfire],
    fun m u => ⟨rfl, rfl⟩⟩
  rw [hfire]
  simp only [List.cons.injEq, Prod.mk.injEq, true_and, and_true]
  exact hclass

/-- Witness for C3: session started at 0, timer fires at the 8-minute mark
and the session is stopped. -/
theorem c3_witness :
    (fireIdleIfDue 480000 (sessionOpenArm 0 hookDemoState)).2.length = 1 ∧
    (fireIdleIfDue 480000 (sessionOpenArm 0 hookDemoState)).1.connectionStatus =
      ConnectionStatus.idle :=
  ⟨(c3_idle_expiry_once_and_classified 0 480000 999999999 hookDemoState (by decide)).1,
   (c3_idle_expiry_once_and_classified 0 480000 999999999 hookDemoState (by decide)).2.1⟩

end BizTalk
